import Mathlib

/-!
Shallow embedding of the FloraMood smart-pot firmware control loop
(`src/main.rs`).  The firmware samples three ADC channels (temperature,
soil moisture, light), converts the raw codes to physical quantities,
draws status text on a display, and drives a relay from a sticky
two-valued command.

Modelling conventions:
* `f32` values are modelled by exact rationals (`ℚ`); every quantity the
  claims compare against a threshold is far from any `f32` rounding
  boundary, so the comparisons coincide.
* `u16` ADC codes are modelled by `ℕ`; where the Rust `u16` arithmetic
  can wrap (the `light_adc - 4000` branch of `calculate_light`) the
  embedding computes modulo 2^16, which is the release-mode semantics of
  the source.
* The loop-carried mutable state (`i`, `value`, the relay level) becomes
  an explicit `LoopState` record threaded through `cycleStep`.
-/

namespace FloraMood

/-- Digital output level of a GPIO pin (`embassy_rp::gpio::Level`). -/
inductive Level where
  | Low
  | High
deriving DecidableEq, Repr

/-- The two-valued actuator command of the spec: `Open` is relay high
(`value = 1` in the source), `Closed` is relay low (`value = 0`). -/
inductive ActuatorCommand where
  | Open
  | Closed
deriving DecidableEq, Repr

/-- `fn adc_to_voltage(adc_value: u16) -> f32 { (adc_value as f32 / 1023 as f32) * 3.3 }`
(src/main.rs lines 65-67). -/
def adc_to_voltage (adc_value : ℕ) : ℚ :=
  ((adc_value : ℚ) / 1023) * 3.3

/-- `fn voltage_to_soil_moisture(voltage: f32) -> f32 { ((10.0 - voltage) / (10.0 - 4.5))*100.0 }`
(src/main.rs lines 69-71). -/
def voltage_to_soil_moisture (voltage : ℚ) : ℚ :=
  ((10.0 - voltage) / (10.0 - 4.5)) * 100.0

/-- `fn calculate_light(light_adc: u16) -> f32` (src/main.rs lines 73-83).
The `light_adc - 4000` branch is `u16` subtraction, which wraps modulo
2^16 for codes 3001..3999; the addition branch cannot wrap because its
guard bounds the code below 1000, but the modulus is kept for uniform
`u16` semantics. -/
def calculate_light (light_adc : ℕ) : ℚ :=
  let adjusted_adc : ℕ :=
    if light_adc > 3000 then (light_adc + 65536 - 4000) % 65536
    else if light_adc < 1000 then (light_adc + 4000) % 65536
    else light_adc
  (adjusted_adc : ℚ)

/-- The displayed temperature of the loop body:
`let temperature_value = adc_to_voltage(level) + 7.0;` (src/main.rs line 235). -/
def temperature_value (level : ℕ) : ℚ :=
  adc_to_voltage level + 7.0

/-- The emergency-alert condition of src/main.rs line 247:
`(soil_moisture < 5.0 || soil_moisture > 70.0) && (light_value < 500.0 || light_value > 2000.0) && (temperature_value < 0.0 || temperature_value > 40.0)`. -/
def alert_condition (soil_moisture light_value temperature : ℚ) : Prop :=
  (soil_moisture < 5.0 ∨ soil_moisture > 70.0) ∧
  (light_value < 500.0 ∨ light_value > 2000.0) ∧
  (temperature < 0.0 ∨ temperature > 40.0)

instance alert_condition.dec (sm lv tv : ℚ) : Decidable (alert_condition sm lv tv) := by
  unfold alert_condition
  infer_instance

/-- The two sequential `if`s of src/main.rs lines 252-261 acting on the
sticky `value` variable: `if soil_moisture < 10.0 { value = 0; }` then
`if soil_moisture > 10.0 { value = 1; }`; when the moisture is exactly
10.0 neither branch runs and the previous value is kept. -/
def valueStep (value : ℕ) (soil_moisture : ℚ) : ℕ :=
  let v := if soil_moisture < 10.0 then 0 else value
  if soil_moisture > 10.0 then 1 else v

/-- The relay write of src/main.rs lines 262-265:
`match value { 0 => relay.set_low(), _ => relay.set_high() }`. -/
def relayOf (value : ℕ) : Level :=
  match value with
  | 0 => Level.Low
  | _ => Level.High

/-- Interpretation of the sticky integer `value` as the spec's
`ActuatorCommand`: 0 is `Closed` (relay low), anything else is `Open`
(relay high), mirroring `relayOf`. -/
def commandOfValue (value : ℕ) : ActuatorCommand :=
  match value with
  | 0 => ActuatorCommand.Closed
  | _ => ActuatorCommand.Open

/-- Per-cycle actuator command sequence produced by folding `valueStep`
over a list of moisture readings, starting from the sticky value `v0`;
the n-th entry is the value the relay is driven with on the n-th cycle. -/
def commandSeq (v0 : ℕ) : List ℚ → List ℕ
  | [] => []
  | m :: ms =>
    let v := valueStep v0 m
    v :: commandSeq v ms

/-- The image-index update of src/main.rs lines 230-231:
`i = i + 1; if i % 60 == 0 { i = i / 60; }`. -/
def indexStep (i : ℕ) : ℕ :=
  let j := i + 1
  if j % 60 = 0 then j / 60 else j

/-- The loop-carried mutable state of `main`: the image-cycle index `i`,
the sticky actuator integer `value`, and the current relay level. -/
structure LoopState where
  i : ℕ
  value : ℕ
  relay : Level
deriving DecidableEq, Repr

/-- Initial state at loop entry: `let mut i = 0; let mut value = 1;`
(src/main.rs lines 218-219) and the relay pin constructed at `Level::Low`
(src/main.rs line 101). -/
def initState : LoopState :=
  { i := 0, value := 1, relay := Level.Low }

/-- Raw ADC codes sampled in one loop iteration. -/
structure CycleInput where
  temp_code : ℕ
  soil_code : ℕ
  light_code : ℕ

/-- Observable outcome of one loop iteration: the index used to select
the frame image, the derived physical quantities, which texts were
drawn, and the level written to the relay. -/
structure CycleResult where
  displayed_index : ℕ
  temperature : ℚ
  soil_moisture : ℚ
  light_value : ℚ
  alert_drawn : Bool
  dry_drawn : Bool
  wet_drawn : Bool
  dark_drawn : Bool
  shine_drawn : Bool
  frozen_drawn : Bool
  hot_drawn : Bool
  relay_level : Level

/-- One iteration of the `loop` body of `main` (src/main.rs lines
224-292): draw the frame at the current index, advance the index,
sample and convert the three channels, draw the conditional texts, and
drive the relay from the sticky value.  The relay line is written on
every iteration, whether or not `value` changed. -/
def cycleStep (s : LoopState) (inp : CycleInput) : LoopState × CycleResult :=
  let displayed := s.i
  let i2 := indexStep s.i
  let temperature := temperature_value inp.temp_code
  let soil_value := adc_to_voltage inp.soil_code
  let soil_moisture := voltage_to_soil_moisture soil_value
  let light_value := calculate_light inp.light_code
  let value2 := valueStep s.value soil_moisture
  let relay2 := relayOf value2
  (⟨i2, value2, relay2⟩,
   { displayed_index := displayed
     temperature := temperature
     soil_moisture := soil_moisture
     light_value := light_value
     alert_drawn := decide (alert_condition soil_moisture light_value temperature)
     dry_drawn := decide (soil_moisture < 10.0)
     wet_drawn := decide (soil_moisture > 10.0)
     dark_drawn := decide (light_value < 500.0)
     shine_drawn := decide (light_value > 2000.0)
     frozen_drawn := decide (temperature < 0.0)
     hot_drawn := decide (temperature > 40.0)
     relay_level := relay2 })

/-- C1: the actuator command is sticky across cycles: moisture below 10.0
forces `Closed` (relay low), moisture above 10.0 forces `Open` (relay
high), and moisture exactly 10.0 leaves the previous command unchanged;
for readings `[12.0, 10.0, 8.0]` the per-cycle command sequence is
`Open, Open, Closed` from any starting value. -/
theorem C1_actuator_sticky :
    (∀ (v : ℕ) (sm : ℚ), sm < 10.0 →
      commandOfValue (valueStep v sm) = ActuatorCommand.Closed ∧
      relayOf (valueStep v sm) = Level.Low) ∧
    (∀ (v : ℕ) (sm : ℚ), sm > 10.0 →
      commandOfValue (valueStep v sm) = ActuatorCommand.Open ∧
      relayOf (valueStep v sm) = Level.High) ∧
    (∀ v : ℕ, valueStep v 10.0 = v) ∧
    (∀ v0 : ℕ, (commandSeq v0 [12.0, 10.0, 8.0]).map commandOfValue =
      [ActuatorCommand.Open, ActuatorCommand.Open, ActuatorCommand.Closed]) := by
  refine ⟨?_, ?_, ?_, ?_⟩
  · intro v sm h
    have h2 : ¬ sm > 10.0 := by linarith
    simp only [valueStep, if_pos h, if_neg h2]
    exact ⟨rfl, rfl⟩
  · intro v sm h
    simp only [valueStep, if_pos h]
    exact ⟨rfl, rfl⟩
  · intro v
    norm_num [valueStep]
  · intro v0
    norm_num [commandSeq, valueStep, commandOfValue]

/-- C1 witness: the sticky-command theorem applied at concrete moisture
readings 8.0, 12.0 and 10.0 and a concrete starting value. -/
theorem C1_actuator_sticky_witness :
    commandOfValue (valueStep 1 8.0) = ActuatorCommand.Closed ∧
    commandOfValue (valueStep 0 12.0) = ActuatorCommand.Open ∧
    valueStep 1 10.0 = 1 ∧
    (commandSeq 1 [12.0, 10.0, 8.0]).map commandOfValue =
      [ActuatorCommand.Open, ActuatorCommand.Open, ActuatorCommand.Closed] :=
  ⟨(C1_actuator_sticky.1 1 8.0 (by norm_num)).1,
   (C1_actuator_sticky.2.1 0 12.0 (by norm_num)).1,
   C1_actuator_sticky.2.2.1 1,
   C1_actuator_sticky.2.2.2 1⟩

/-- C2: the emergency alert condition holds exactly when all three
quantities are simultaneously out of band (moisture outside [5,70],
light outside [500,2000] and temperature outside [0,40]); it fires at
(3.0, 100.0, -5.0), and moving any single quantity in-band extinguishes it. -/
theorem C2_alert_conjunctive :
    (∀ sm lv tv : ℚ,
      alert_condition sm lv tv ↔
        (sm ∉ Set.Icc (5.0 : ℚ) 70.0 ∧ lv ∉ Set.Icc (500.0 : ℚ) 2000.0 ∧
         tv ∉ Set.Icc (0.0 : ℚ) 40.0)) ∧
    alert_condition 3.0 100.0 (-5.0) ∧
    (∀ sm : ℚ, 5.0 ≤ sm → sm ≤ 70.0 → ¬ alert_condition sm 100.0 (-5.0)) ∧
    (∀ lv : ℚ, 500.0 ≤ lv → lv ≤ 2000.0 → ¬ alert_condition 3.0 lv (-5.0)) ∧
    (∀ tv : ℚ, 0.0 ≤ tv → tv ≤ 40.0 → ¬ alert_condition 3.0 100.0 tv) := by
  refine ⟨?_, ?_, ?_, ?_, ?_⟩
  · intro sm lv tv
    simp only [alert_condition, Set.mem_Icc, not_and_or, not_le, gt_iff_lt]
  · norm_num [alert_condition]
  · rintro sm h1 h2 ⟨hs | hs, -, -⟩ <;> linarith
  · rintro lv h1 h2 ⟨-, hl | hl, -⟩ <;> linarith
  · rintro tv h1 h2 ⟨-, -, ht | ht⟩ <;> linarith

/-- C2 witness: the conjunctive-alert theorem applied at concrete in-band
values 20.0 (moisture), 1000.0 (light) and 20.0 (temperature), plus the
iff instantiated at the firing triple. -/
theorem C2_alert_conjunctive_witness :
    (alert_condition 3.0 100.0 (-5.0) ↔
      ((3.0 : ℚ) ∉ Set.Icc (5.0 : ℚ) 70.0 ∧ (100.0 : ℚ) ∉ Set.Icc (500.0 : ℚ) 2000.0 ∧
       (-5.0 : ℚ) ∉ Set.Icc (0.0 : ℚ) 40.0)) ∧
    ¬ alert_condition 20.0 100.0 (-5.0) ∧
    ¬ alert_condition 3.0 1000.0 (-5.0) ∧
    ¬ alert_condition 3.0 100.0 20.0 :=
  ⟨C2_alert_conjunctive.1 3.0 100.0 (-5.0),
   C2_alert_conjunctive.2.2.1 20.0 (by norm_num) (by norm_num),
   C2_alert_conjunctive.2.2.2.1 1000.0 (by norm_num) (by norm_num),
   C2_alert_conjunctive.2.2.2.2 20.0 (by norm_num) (by norm_num)⟩

/-- C3: over the whole `u16` raw-code domain, exactly one of the three
bands of `calculate_light` applies (strictly above 3000: shift down by
4000 in wrapping `u16` arithmetic, and literally down by 4000 once the
code is at least 4000; strictly below 1000: shift up by 4000; the middle
band passes through unchanged), and the function returns a value on
every code. -/
theorem C3_light_total :
    ∀ adc : ℕ, adc < 65536 →
      ((3000 < adc ∧ ¬ adc < 1000 ∧ ¬ (1000 ≤ adc ∧ adc ≤ 3000)) ∨
       (adc < 1000 ∧ ¬ 3000 < adc ∧ ¬ (1000 ≤ adc ∧ adc ≤ 3000)) ∨
       ((1000 ≤ adc ∧ adc ≤ 3000) ∧ ¬ 3000 < adc ∧ ¬ adc < 1000)) ∧
      (3000 < adc → calculate_light adc = (((adc + 65536 - 4000) % 65536 : ℕ) : ℚ)) ∧
      (adc < 1000 → calculate_light adc = ((adc + 4000 : ℕ) : ℚ)) ∧
      (1000 ≤ adc → adc ≤ 3000 → calculate_light adc = (adc : ℚ)) ∧
      (4000 ≤ adc → calculate_light adc = ((adc - 4000 : ℕ) : ℚ)) := by
  intro adc h
  refine ⟨by omega, ?_, ?_, ?_, ?_⟩
  · intro h1
    simp only [calculate_light, if_pos h1]
  · intro h1
    have h2 : ¬ adc > 3000 := by omega
    simp only [calculate_light, if_neg h2, if_pos h1]
    have h3 : (adc + 4000) % 65536 = adc + 4000 := by omega
    rw [h3]
  · intro h1 h2
    have h3 : ¬ adc > 3000 := by omega
    have h4 : ¬ adc < 1000 := by omega
    simp only [calculate_light, if_neg h3, if_neg h4]
  · intro h1
    have h2 : adc > 3000 := by omega
    simp only [calculate_light, if_pos h2]
    have h3 : (adc + 65536 - 4000) % 65536 = adc - 4000 := by omega
    rw [h3]

/-- C3 witness: the totality theorem applied at codes in each band:
5000 (shifted down to 1000), 500 (shifted up to 4500) and 2000
(unchanged). -/
theorem C3_light_total_witness :
    calculate_light 5000 = 1000 ∧ calculate_light 500 = 4500 ∧
    calculate_light 2000 = 2000 := by
  refine ⟨?_, ?_, ?_⟩
  · have h := (C3_light_total 5000 (by norm_num)).2.2.2.2 (by norm_num)
    norm_num at h
    exact h
  · have h := (C3_light_total 500 (by norm_num)).2.2.1 (by norm_num)
    norm_num at h
    exact h
  · exact (C3_light_total 2000 (by norm_num)).2.2.2.1 (by norm_num) (by norm_num)

set_option maxRecDepth 8000 in
/-- C4 counterexample: starting from index 0 (the loop's initial value),
60 advances of the source's update `i = i + 1; if i % 60 == 0 { i = i / 60 }`
yield 1, not the starting value 0, so the index is not `(i + 1) mod 60`
and does not return to its start after N = 60 advances. -/
theorem C4_index_counterexample :
    indexStep^[60] 0 = 1 ∧ ¬ indexStep^[60] 0 = 0 := by
  decide

set_option maxRecDepth 8000 in
/-- C4 amended: the index used to select a frame never leaves [0, 59]
(one step from any index at most 59 lands in [1, 59]), but the cycle
period is 59, not 60: the update resets 60 to 60/60 = 1 rather than to
0, so every index in [1, 59] returns to itself after 59 advances. -/
theorem C4_index_amended :
    (∀ i : ℕ, i ≤ 59 → 1 ≤ indexStep i ∧ indexStep i ≤ 59) ∧
    (∀ i : ℕ, 1 ≤ i → i ≤ 59 → indexStep^[59] i = i) := by
  constructor
  · intro i h
    simp only [indexStep]
    split_ifs with h1 <;> omega
  · intro i h1 h2
    interval_cases i <;> decide

set_option maxRecDepth 8000 in
/-- C4 witness: the amended theorem applied at index 59: one advance
lands in [1, 59] and 59 advances return to 59. -/
theorem C4_index_amended_witness :
    (1 ≤ indexStep 59 ∧ indexStep 59 ≤ 59) ∧ indexStep^[59] 59 = 59 :=
  ⟨C4_index_amended.1 59 (by norm_num), C4_index_amended.2 59 (by norm_num) (by norm_num)⟩

/-- C5: soil moisture is the fixed affine transform
`((10.0 - v) / (10.0 - 4.5)) * 100.0`, strictly decreasing in the
voltage, and unclamped: at 2.0 V it equals 1600/11 ≈ 145.45 %, strictly
above 100, and is propagated as-is. -/
theorem C5_soil_moisture_affine :
    (∀ v : ℚ, voltage_to_soil_moisture v = ((10.0 - v) / (10.0 - 4.5)) * 100.0) ∧
    (∀ v w : ℚ, v < w → voltage_to_soil_moisture w < voltage_to_soil_moisture v) ∧
    voltage_to_soil_moisture 2.0 = 1600 / 11 ∧
    (145.45 < voltage_to_soil_moisture 2.0 ∧ voltage_to_soil_moisture 2.0 < 145.46) ∧
    100 < voltage_to_soil_moisture 2.0 := by
  have key : ∀ x : ℚ, voltage_to_soil_moisture x = (2000 - 200 * x) / 11 := by
    intro x
    unfold voltage_to_soil_moisture
    norm_num
    ring
  refine ⟨fun v => rfl, ?_, ?_, ?_, ?_⟩
  · intro v w h
    rw [key, key]
    linarith
  · rw [key]; norm_num
  · rw [key]; norm_num
  · rw [key]; norm_num

/-- C5 witness: the strict-decrease part applied at the concrete pair
0 < 1, together with the concrete value at 2.0 V. -/
theorem C5_soil_moisture_affine_witness :
    voltage_to_soil_moisture 1 < voltage_to_soil_moisture 0 ∧
    voltage_to_soil_moisture 2.0 = 1600 / 11 :=
  ⟨C5_soil_moisture_affine.2.1 0 1 (by norm_num), C5_soil_moisture_affine.2.2.1⟩

/-- C6 counterexample: the converter divides by 1023, so at the
hardware's 12-bit full-scale code 4095 the output is
4095/1023 · 3.3 ≈ 13.21 V, strictly above 3.3 — the claim that every
full-scale-domain code maps into [0, 3.3] is false. -/
theorem C6_voltage_counterexample :
    (3.3 : ℚ) < adc_to_voltage 4095 := by
  norm_num [adc_to_voltage]

/-- C6 amended: the converter is proportional to the code with slope
3.3/1023 everywhere; its output lies in [0, 3.3] for codes up to 1023
(the divisor's implied full scale), while over the hardware's 12-bit
domain it only stays below 13.21 V. -/
theorem C6_voltage_amended :
    (∀ c : ℕ, adc_to_voltage c = (c : ℚ) * (3.3 / 1023)) ∧
    (∀ c : ℕ, c ≤ 1023 → 0 ≤ adc_to_voltage c ∧ adc_to_voltage c ≤ 3.3) ∧
    (∀ c : ℕ, c ≤ 4095 → adc_to_voltage c ≤ 13.21) := by
  refine ⟨?_, ?_, ?_⟩
  · intro c
    unfold adc_to_voltage
    ring
  · intro c h
    have hc : (c : ℚ) ≤ 1023 := by exact_mod_cast h
    have h0 : (0 : ℚ) ≤ (c : ℚ) := Nat.cast_nonneg c
    unfold adc_to_voltage
    constructor <;> linarith
  · intro c h
    have hc : (c : ℚ) ≤ 4095 := by exact_mod_cast h
    have h0 : (0 : ℚ) ≤ (c : ℚ) := Nat.cast_nonneg c
    unfold adc_to_voltage
    linarith

/-- C6 witness: the amended theorem applied at codes 1023 and 4095. -/
theorem C6_voltage_amended_witness :
    (0 ≤ adc_to_voltage 1023 ∧ adc_to_voltage 1023 ≤ 3.3) ∧
    adc_to_voltage 4095 ≤ 13.21 :=
  ⟨C6_voltage_amended.2.1 1023 (by norm_num), C6_voltage_amended.2.2 4095 (by norm_num)⟩

/-- C7: the displayed temperature is the converted voltage plus the fixed
post-conversion offset 7.0 for every raw code; any code converting to
exactly 1.0 V yields 8.0 °C, and code 310 is such a code. -/
theorem C7_temperature_offset :
    (∀ c : ℕ, temperature_value c = adc_to_voltage c + 7.0) ∧
    (∀ c : ℕ, adc_to_voltage c = 1.0 → temperature_value c = 8.0) ∧
    adc_to_voltage 310 = 1.0 ∧
    temperature_value 310 = 8.0 := by
  refine ⟨fun c => rfl, ?_, ?_, ?_⟩
  · intro c h
    unfold temperature_value
    rw [h]
    norm_num
  · norm_num [adc_to_voltage]
  · norm_num [temperature_value, adc_to_voltage]

/-- C7 witness: the offset theorem applied at code 310, whose converted
voltage is exactly 1.0 V. -/
theorem C7_temperature_offset_witness :
    temperature_value 310 = 8.0 :=
  C7_temperature_offset.2.1 310 (by norm_num [adc_to_voltage])

/-- C8: a raw light code of exactly 3000 passes through the re-centering
transform unchanged, because the shift-down band is strictly `> 3000`;
more generally the whole middle band [1000, 3000] passes through. -/
theorem C8_light_boundary :
    calculate_light 3000 = 3000 ∧
    (∀ adc : ℕ, 1000 ≤ adc → adc ≤ 3000 → calculate_light adc = (adc : ℚ)) := by
  constructor
  · norm_num [calculate_light]
  · intro adc h1 h2
    have h3 : ¬ adc > 3000 := by omega
    have h4 : ¬ adc < 1000 := by omega
    simp only [calculate_light, if_neg h3, if_neg h4]

/-- C8 witness: the pass-through part applied at the boundary code 3000
and at the interior code 1000. -/
theorem C8_light_boundary_witness :
    calculate_light 3000 = (3000 : ℚ) ∧ calculate_light 1000 = (1000 : ℚ) :=
  ⟨C8_light_boundary.2 3000 (by norm_num) (by norm_num),
   C8_light_boundary.2 1000 (by norm_num) (by norm_num)⟩

/-- C9: for every raw temperature code in the 12-bit range [0, 4095] the
derived temperature (code/1023)·3.3 + 7.0 lies in [7.0, 20.3], hence is
never below 0 nor above 40; consequently in any cycle with such a code
the frozen and hot texts are not drawn and the conjunctive alert cannot
fire, whatever the other two readings are. -/
theorem C9_temperature_in_band :
    ∀ c : ℕ, c ≤ 4095 →
      7.0 ≤ temperature_value c ∧ temperature_value c ≤ 20.3 ∧
      ¬ temperature_value c < 0.0 ∧ ¬ temperature_value c > 40.0 ∧
      (∀ sm lv : ℚ, ¬ alert_condition sm lv (temperature_value c)) ∧
      (∀ (s : LoopState) (inp : CycleInput), inp.temp_code = c →
        (cycleStep s inp).2.frozen_drawn = false ∧
        (cycleStep s inp).2.hot_drawn = false ∧
        (cycleStep s inp).2.alert_drawn = false) := by
  intro c hc
  have h1 : (c : ℚ) ≤ 4095 := by exact_mod_cast hc
  have h0 : (0 : ℚ) ≤ (c : ℚ) := Nat.cast_nonneg c
  have hlow : 7.0 ≤ temperature_value c := by
    unfold temperature_value adc_to_voltage
    linarith
  have hhigh : temperature_value c ≤ 20.3 := by
    unfold temperature_value adc_to_voltage
    linarith
  have hnf : ¬ temperature_value c < 0.0 := by intro h; linarith
  have hnh : ¬ temperature_value c > 40.0 := by intro h; linarith
  have halert : ∀ sm lv : ℚ, ¬ alert_condition sm lv (temperature_value c) := by
    rintro sm lv ⟨-, -, ht | ht⟩ <;> linarith
  refine ⟨hlow, hhigh, hnf, hnh, halert, ?_⟩
  intro s inp he
  simp only [cycleStep, he]
  exact ⟨decide_eq_false hnf, decide_eq_false hnh, decide_eq_false (halert _ _)⟩

/-- C9 witness: the in-band theorem applied at the extreme code 4095,
with concrete other readings and a concrete loop state. -/
theorem C9_temperature_in_band_witness :
    7.0 ≤ temperature_value 4095 ∧ temperature_value 4095 ≤ 20.3 ∧
    ¬ alert_condition 3.0 100.0 (temperature_value 4095) ∧
    (cycleStep initState ⟨4095, 0, 0⟩).2.frozen_drawn = false := by
  obtain ⟨a, b, -, -, e, f⟩ := C9_temperature_in_band 4095 (by norm_num)
  exact ⟨a, b, e 3.0 100.0, (f initState ⟨4095, 0, 0⟩ rfl).1⟩

/-- C10: the sticky value starts at 1 (`Open`) while the relay pin is
constructed at `Low`; on a first cycle reading exactly 10.0 neither
decision branch runs, yet the relay is written from the unchanged value
and is driven `High` — and on every cycle the relay ends up equal to
`relayOf` of the cycle's decided value, whether or not it changed. -/
theorem C10_initial_open_always_written :
    initState.value = 1 ∧ initState.relay = Level.Low ∧
    valueStep initState.value 10.0 = initState.value ∧
    relayOf (valueStep initState.value 10.0) = Level.High ∧
    relayOf (valueStep initState.value 10.0) ≠ initState.relay ∧
    commandOfValue (valueStep initState.value 10.0) = ActuatorCommand.Open ∧
    (∀ (s : LoopState) (inp : CycleInput),
      (cycleStep s inp).1.relay = relayOf ((cycleStep s inp).1.value)) := by
  have hv : valueStep initState.value 10.0 = 1 := by norm_num [valueStep, initState]
  refine ⟨rfl, rfl, ?_, ?_, ?_, ?_, fun s inp => rfl⟩
  · rw [hv]
    rfl
  · rw [hv]
    rfl
  · rw [hv]
    intro h
    exact Level.noConfusion h
  · rw [hv]
    rfl

end FloraMood
